import Mathlib

/-!
Verification of the Doctor Who database API (Express + Sequelize backend).

The definitions below are a shallow embedding of the repository's
JavaScript source: the SQL/ORM queries of
src/services/queryService.js become pure functions over an explicit
database state (lists of rows), the Express route handlers become
functions from request data to response descriptions, and the relevant
fragment of JavaScript value semantics (truthiness, ToNumber coercion,
relational comparison against numeric literals, parseInt) is modelled by
the JSValue type and its operations.  Numbers are modelled as rationals
(JavaScript numbers are floats; every literal appearing in the modelled
code paths is exactly representable).  NaN is represented by a failed
coercion (Option.none), which is faithful for every comparison and
isNaN test the modelled code performs.
-/

/-- Character code 39, the ASCII apostrophe, used to build string
literals that contain one. -/
def apos : Char := Char.ofNat 39

/-- A JavaScript value as it can appear in a parsed JSON request body
(plus undefined for an absent field).  Objects and arrays are omitted:
no modelled code path distinguishes them from other truthy
non-numeric values. -/
inductive JSValue where
  | vnum (q : Rat)
  | vstr (s : String)
  | vbool (b : Bool)
  | vnull
  | vundefined
  deriving DecidableEq, Repr

/-- JavaScript truthiness: 0, the empty string, false, null and
undefined are falsy, everything else modelled here is truthy. -/
def truthy : JSValue → Bool
  | .vnum q => q ≠ 0
  | .vstr s => s ≠ ""
  | .vbool b => b
  | .vnull => false
  | .vundefined => false

/-- Numeric value of a list of decimal digit characters; none when the
list is empty or contains a non-digit. -/
def digitsToNat : List Char → Option Nat
  | [] => none
  | cs =>
    cs.foldl
      (fun acc c =>
        match acc with
        | none => none
        | some n => if c.isDigit then some (n * 10 + (c.toNat - 48)) else none)
      (some 0)

/-- Whitespace trimming on a character list (the trim JavaScript
number coercion performs). -/
def trimChars (cs : List Char) : List Char :=
  ((cs.dropWhile Char.isWhitespace).reverse.dropWhile Char.isWhitespace).reverse

/-- The fragment of JavaScript Number(string) coercion exercised by the
modelled code: optional sign, a run of digits, optionally a decimal
point followed by digits; the empty (trimmed) string coerces to 0;
anything else is NaN (none). -/
def parseJSNumber (s : String) : Option Rat :=
  let cs := trimChars s.data
  if cs.isEmpty then some 0
  else
    let sign : Rat :=
      match cs with
      | '-' :: _ => -1
      | _ => 1
    let body : List Char :=
      match cs with
      | '-' :: r => r
      | '+' :: r => r
      | r => r
    let ip := body.takeWhile (fun c => c ≠ '.')
    let rest := body.dropWhile (fun c => c ≠ '.')
    match rest with
    | [] => (digitsToNat ip).map (fun n => sign * n)
    | _ :: fp =>
      if fp.any (fun c => c = '.') then none
      else
        match digitsToNat ip, digitsToNat fp with
        | some i, some f =>
          some (sign * ((i : Rat) + (f : Rat) / ((10 : Rat) ^ fp.length)))
        | _, _ => none

/-- JavaScript ToNumber coercion on the modelled values; none is NaN. -/
def toNumber : JSValue → Option Rat
  | .vnum q => some q
  | .vstr s => parseJSNumber s
  | .vbool b => some (if b then 1 else 0)
  | .vnull => some 0
  | .vundefined => none

/-- The global isNaN(v): ToNumber(v) is NaN. -/
def jsIsNaN (v : JSValue) : Bool := (toNumber v).isNone

/-- JavaScript relational comparison v < k where k is a number literal:
NaN comparisons are false. -/
def jsLtNum (v : JSValue) (k : Rat) : Bool :=
  match toNumber v with
  | some x => x < k
  | none => false

/-- JavaScript relational comparison v > k where k is a number literal. -/
def jsGtNum (v : JSValue) (k : Rat) : Bool :=
  match toNumber v with
  | some x => x > k
  | none => false

/-- JavaScript relational comparison v <= k where k is a number literal. -/
def jsLeNum (v : JSValue) (k : Rat) : Bool :=
  match toNumber v with
  | some x => x ≤ k
  | none => false

/-- Numeric value of a digit run, accumulating left to right. -/
def digitsVal (cs : List Char) : Nat :=
  cs.foldl (fun a c => a * 10 + (c.toNat - 48)) 0

/-- JavaScript parseInt on a string: skip whitespace, optional sign,
then the longest leading run of digits; NaN (none) when that run is
empty. -/
def jsParseInt (s : String) : Option Int :=
  let cs := trimChars s.data
  let sign : Int :=
    match cs with
    | '-' :: _ => -1
    | _ => 1
  let body : List Char :=
    match cs with
    | '-' :: r => r
    | '+' :: r => r
    | r => r
  let ds := body.takeWhile Char.isDigit
  if ds.isEmpty then none else some (sign * digitsVal ds)

/-- Whether the first list begins with the second one. -/
def startsWithList : List Char → List Char → Bool
  | _, [] => true
  | [], _ :: _ => false
  | c :: cs, d :: ds => c = d && startsWithList cs ds

/-- Whether sub occurs contiguously inside hay. -/
def includesList : List Char → List Char → Bool
  | [], sub => sub.isEmpty
  | c :: t, sub => startsWithList (c :: t) sub || includesList t sub

/-- JavaScript String.prototype.includes. -/
def strIncludes (s sub : String) : Bool := includesList s.data sub.data

/-! ## Relational state

One structure per table touched by the modelled queries, mirroring the
columns the queries read.  Foreign keys that the schema allows to be
NULL are Option-valued. -/

/-- A row of the ACTORS table. -/
structure ActorRow where
  actor_id : Nat
  name : String
  deriving DecidableEq, Repr

/-- A row of the DOCTOR table. -/
structure DoctorRow where
  doctor_id : Nat
  incarnation_number : Nat
  actor_id : Nat
  first_episode_id : Option Nat
  last_episode_id : Option Nat
  catchphrase : Option String
  deriving DecidableEq, Repr

/-- A row of the EPISODES table. -/
structure EpisodeRow where
  episode_id : Nat
  title : String
  season_id : Option Nat
  writer_id : Option Nat
  director_id : Option Nat
  air_date : Option String
  runtime_minutes : Option Nat
  deriving DecidableEq, Repr

/-- A row of the COMPANIONS table. -/
structure CompanionRow where
  companion_id : Nat
  name : String
  species_id : Option Nat
  home_planet_id : Option Nat
  deriving DecidableEq, Repr

/-- A row of the SPECIES table. -/
structure SpeciesRow where
  species_id : Nat
  name : String
  deriving DecidableEq, Repr

/-- A row of the PLANETS table. -/
structure PlanetRow where
  planet_id : Nat
  name : String
  deriving DecidableEq, Repr

/-- A row of the SEASONS table. -/
structure SeasonRow where
  season_id : Nat
  series_number : Nat
  deriving DecidableEq, Repr

/-- A row of the WRITERS table. -/
structure WriterRow where
  writer_id : Nat
  name : String
  deriving DecidableEq, Repr

/-- A row of the DIRECTORS table. -/
structure DirectorRow where
  director_id : Nat
  name : String
  deriving DecidableEq, Repr

/-- A row of the DOCTOR_COMPANIONS join table. -/
structure DoctorCompanionRow where
  doctor_id : Nat
  companion_id : Nat
  start_episode_id : Option Nat
  end_episode_id : Option Nat
  deriving DecidableEq, Repr

/-- A row of the ENEMIES table. -/
structure EnemyRow where
  enemy_id : Nat
  name : String
  species_id : Option Nat
  home_planet_id : Option Nat
  threat_level : Int
  deriving DecidableEq, Repr

/-- A row of the ENEMY_EPISODES join table. -/
structure EnemyEpisodeRow where
  enemy_id : Nat
  episode_id : Nat
  role : Option String
  deriving DecidableEq, Repr

/-- A row of the EPISODE_LOCATIONS join table. -/
structure EpisodeLocationRow where
  episode_id : Nat
  planet_id : Nat
  visit_order : Option Nat
  deriving DecidableEq, Repr

/-- The database state: the tables read or written by the modelled
services, each as a list of rows. -/
structure DBState where
  actors : List ActorRow
  doctors : List DoctorRow
  episodes : List EpisodeRow
  companions : List CompanionRow
  species : List SpeciesRow
  planets : List PlanetRow
  seasons : List SeasonRow
  writers : List WriterRow
  directors : List DirectorRow
  doctor_companions : List DoctorCompanionRow
  enemies : List EnemyRow
  enemy_episodes : List EnemyEpisodeRow
  episode_locations : List EpisodeLocationRow
  deriving DecidableEq, Repr

/-! ## getDoctorFullDetails (src/services/queryService.js)

Each raw SQL statement of the service becomes a pure function on
DBState.  Primary keys are assumed unique (as in any real database),
so the single-row side of a join is looked up with List.find?.
SELECT DISTINCT is List.dedup on the projected rows. -/

/-- A row of the companion query: DOCTOR_COMPANIONS inner-joined to
COMPANIONS, left-joined to SPECIES and PLANETS, filtered to one
doctor, projected to the selected columns. -/
structure CompanionQueryRow where
  companion_id : Nat
  companion_name : String
  species_id : Option Nat
  species_name : Option String
  companion_planet_id : Option Nat
  companion_planet_name : Option String
  start_episode_id : Option Nat
  end_episode_id : Option Nat
  deriving DecidableEq, Repr

/-- The companion SELECT DISTINCT of getDoctorFullDetails. -/
def companionQuery (db : DBState) (doctorId : Nat) : List CompanionQueryRow :=
  (((db.doctor_companions.filter (fun dc => decide (dc.doctor_id = doctorId))).flatMap
    (fun dc =>
      (db.companions.filter (fun c => decide (c.companion_id = dc.companion_id))).map
        (fun c =>
          let s := db.species.find? (fun s => decide (some s.species_id = c.species_id))
          let p := db.planets.find? (fun p => decide (some p.planet_id = c.home_planet_id))
          { companion_id := c.companion_id
            companion_name := c.name
            species_id := c.species_id
            species_name := s.map (fun x => x.name)
            companion_planet_id := p.map (fun x => x.planet_id)
            companion_planet_name := p.map (fun x => x.name)
            start_episode_id := dc.start_episode_id
            end_episode_id := dc.end_episode_id })))).dedup

/-- A row of the episode query of getDoctorFullDetails. -/
structure EpisodeQueryRow where
  episode_id : Nat
  episode_title : String
  air_date : Option String
  runtime_minutes : Option Nat
  deriving DecidableEq, Repr

/-- The episode SELECT DISTINCT of getDoctorFullDetails:
DOCTOR_COMPANIONS inner-joined to EPISODES on the episode being the
start or the end episode of the row, filtered to one doctor. -/
def episodeQuery (db : DBState) (doctorId : Nat) : List EpisodeQueryRow :=
  (((db.doctor_companions.filter (fun dc => decide (dc.doctor_id = doctorId))).flatMap
    (fun dc =>
      (db.episodes.filter (fun e =>
        decide (dc.start_episode_id = some e.episode_id ∨
                dc.end_episode_id = some e.episode_id))).map
        (fun e => { episode_id := e.episode_id
                    episode_title := e.title
                    air_date := e.air_date
                    runtime_minutes := e.runtime_minutes })))).dedup

/-- A row of the per-episode-set enemy query. -/
structure EnemyQueryRow where
  episode_id : Nat
  enemy_id : Nat
  enemy_name : String
  threat_level : Int
  deriving DecidableEq, Repr

/-- The enemy SELECT of getDoctorFullDetails: ENEMY_EPISODES
inner-joined to ENEMIES, filtered to the given episode-id set. -/
def enemyQuery (db : DBState) (episodeIds : List Nat) : List EnemyQueryRow :=
  (db.enemy_episodes.filter (fun ee => decide (ee.episode_id ∈ episodeIds))).flatMap
    (fun ee =>
      (db.enemies.filter (fun en => decide (en.enemy_id = ee.enemy_id))).map
        (fun en => { episode_id := ee.episode_id
                     enemy_id := en.enemy_id
                     enemy_name := en.name
                     threat_level := en.threat_level }))

/-- A row of the per-episode-set planet query. -/
structure PlanetQueryRow where
  episode_id : Nat
  planet_id : Nat
  planet_name : String
  deriving DecidableEq, Repr

/-- The planet SELECT of getDoctorFullDetails: EPISODE_LOCATIONS
inner-joined to PLANETS, filtered to the given episode-id set. -/
def planetQuery (db : DBState) (episodeIds : List Nat) : List PlanetQueryRow :=
  (db.episode_locations.filter (fun el => decide (el.episode_id ∈ episodeIds))).flatMap
    (fun el =>
      (db.planets.filter (fun p => decide (p.planet_id = el.planet_id))).map
        (fun p => { episode_id := el.episode_id
                    planet_id := p.planet_id
                    planet_name := p.name }))

/-- The nested species object of a returned companion. -/
structure SpeciesOut where
  species_id : Nat
  name : Option String
  deriving DecidableEq, Repr

/-- The nested home-planet object of a returned companion. -/
structure PlanetRefOut where
  planet_id : Nat
  name : Option String
  deriving DecidableEq, Repr

/-- One entry of the companions list of the result. -/
structure CompanionOut where
  companion_id : Nat
  name : String
  start_episode_id : Option Nat
  end_episode_id : Option Nat
  species : Option SpeciesOut
  homePlanet : Option PlanetRefOut
  deriving DecidableEq, Repr

/-- One entry of an episode's nested enemies list. -/
structure EnemyOut where
  enemy_id : Nat
  name : String
  threat_level : Int
  deriving DecidableEq, Repr

/-- One entry of an episode's nested planets list. -/
structure PlanetOut where
  planet_id : Nat
  name : String
  deriving DecidableEq, Repr

/-- One entry of the episodes list of the result. -/
structure EpisodeOut where
  episode_id : Nat
  title : String
  air_date : Option String
  runtime_minutes : Option Nat
  enemies : List EnemyOut
  planets : List PlanetOut
  deriving DecidableEq, Repr

/-- The assembled result of getDoctorFullDetails: the doctor row with
its eagerly included actor and first/last episodes, plus the
companions and episodes lists built by the raw queries. -/
structure DoctorFullDetails where
  doctor : DoctorRow
  actor : Option ActorRow
  firstEpisode : Option EpisodeRow
  lastEpisode : Option EpisodeRow
  companions : List CompanionOut
  episodes : List EpisodeOut
  deriving DecidableEq, Repr

/-- Mapping of one companion query row to the response shape, with the
JavaScript truthiness test on the id fields (null and 0 are falsy) that
decides between a nested object and null. -/
def mkCompanionOut (r : CompanionQueryRow) : CompanionOut :=
  { companion_id := r.companion_id
    name := r.companion_name
    start_episode_id := r.start_episode_id
    end_episode_id := r.end_episode_id
    species :=
      match r.species_id with
      | some sid => if sid ≠ 0 then some { species_id := sid, name := r.species_name } else none
      | none => none
    homePlanet :=
      match r.companion_planet_id with
      | some pid => if pid ≠ 0 then some { planet_id := pid, name := r.companion_planet_name } else none
      | none => none }

/-- Lookup of an optionally referenced episode row by primary key. -/
def findEpisode (db : DBState) (oid : Option Nat) : Option EpisodeRow :=
  match oid with
  | some eid => db.episodes.find? (fun e => decide (e.episode_id = eid))
  | none => none

/-- QueryService.getDoctorFullDetails: doctor by primary key with
actor and first/last episode included; none when absent; otherwise the
companion and episode queries, the per-episode-set enemy and planet
queries (only when the episode set is non-empty), and the assembly of
the nested result by filtering the flat enemy/planet rows per
episode id. -/
def getDoctorFullDetails (db : DBState) (doctorId : Nat) : Option DoctorFullDetails :=
  match db.doctors.find? (fun d => decide (d.doctor_id = doctorId)) with
  | none => none
  | some d =>
    let companionRows := companionQuery db doctorId
    let episodeRows := episodeQuery db doctorId
    let episodeIds := episodeRows.map (fun r => r.episode_id)
    let episodeEnemies := if episodeIds.isEmpty then [] else enemyQuery db episodeIds
    let episodePlanets := if episodeIds.isEmpty then [] else planetQuery db episodeIds
    some
      { doctor := d
        actor := db.actors.find? (fun a => decide (a.actor_id = d.actor_id))
        firstEpisode := findEpisode db d.first_episode_id
        lastEpisode := findEpisode db d.last_episode_id
        companions := companionRows.map mkCompanionOut
        episodes := episodeRows.map (fun e =>
          { episode_id := e.episode_id
            title := e.episode_title
            air_date := e.air_date
            runtime_minutes := e.runtime_minutes
            enemies := (episodeEnemies.filter (fun en => decide (en.episode_id = e.episode_id))).map
              (fun en => { enemy_id := en.enemy_id
                           name := en.enemy_name
                           threat_level := en.threat_level })
            planets := (episodePlanets.filter (fun pl => decide (pl.episode_id = e.episode_id))).map
              (fun pl => { planet_id := pl.planet_id
                           name := pl.planet_name }) }) }

/-! ## getEpisodeWithAllDetails (src/services/queryService.js) -/

/-- Lookup of an optionally referenced planet row by primary key. -/
def findPlanet (db : DBState) (oid : Option Nat) : Option PlanetRow :=
  match oid with
  | some pid => db.planets.find? (fun p => decide (p.planet_id = pid))
  | none => none

/-- Lookup of an optionally referenced species row by primary key. -/
def findSpecies (db : DBState) (oid : Option Nat) : Option SpeciesRow :=
  match oid with
  | some sid => db.species.find? (fun s => decide (s.species_id = sid))
  | none => none

/-- Lookup of an optionally referenced season row by primary key. -/
def findSeason (db : DBState) (oid : Option Nat) : Option SeasonRow :=
  match oid with
  | some sid => db.seasons.find? (fun s => decide (s.season_id = sid))
  | none => none

/-- Lookup of an optionally referenced writer row by primary key. -/
def findWriter (db : DBState) (oid : Option Nat) : Option WriterRow :=
  match oid with
  | some wid => db.writers.find? (fun w => decide (w.writer_id = wid))
  | none => none

/-- Lookup of an optionally referenced director row by primary key. -/
def findDirector (db : DBState) (oid : Option Nat) : Option DirectorRow :=
  match oid with
  | some did => db.directors.find? (fun d => decide (d.director_id = did))
  | none => none

/-- One entry of the episode result's enemies list: the enemy row with
its nested home planet and species, and the role attribute carried by
the ENEMY_EPISODES through row. -/
structure EnemyDetailOut where
  enemy : EnemyRow
  homePlanet : Option PlanetRow
  species : Option SpeciesRow
  role : Option String
  deriving DecidableEq, Repr

/-- One entry of the episode result's planets list, with the
visit-order attribute of the EPISODE_LOCATIONS through row. -/
structure PlanetVisitOut where
  planet : PlanetRow
  visit_order : Option Nat
  deriving DecidableEq, Repr

/-- One entry of the episode result's doctors list: the doctor with
its actor and its companions filtered by the through-condition. -/
structure DoctorWithCompanionsOut where
  doctor : DoctorRow
  actor : Option ActorRow
  companions : List CompanionRow
  deriving DecidableEq, Repr

/-- The assembled result of getEpisodeWithAllDetails. -/
structure EpisodeFullDetails where
  episode : EpisodeRow
  season : Option SeasonRow
  writer : Option WriterRow
  director : Option DirectorRow
  enemies : List EnemyDetailOut
  planets : List PlanetVisitOut
  doctors : List DoctorWithCompanionsOut
  deriving DecidableEq, Repr

/-- QueryService.getEpisodeWithAllDetails: the episode by primary key
with season, writer, director, its many-to-many enemies (through
ENEMY_EPISODES) and planets (through EPISODE_LOCATIONS); then
Doctor.findAll with the companions association included through
DOCTOR_COMPANIONS restricted to rows whose start or end episode is
this episode.  That include is declared required: false, which is a
LEFT OUTER JOIN: every doctor row of the table appears in the doctors
list, those without a matching through row with an empty companions
list. -/
def getEpisodeWithAllDetails (db : DBState) (episodeId : Nat) : Option EpisodeFullDetails :=
  match db.episodes.find? (fun e => decide (e.episode_id = episodeId)) with
  | none => none
  | some e =>
    some
      { episode := e
        season := findSeason db e.season_id
        writer := findWriter db e.writer_id
        director := findDirector db e.director_id
        enemies := (db.enemy_episodes.filter (fun ee => decide (ee.episode_id = episodeId))).flatMap
          (fun ee =>
            (db.enemies.filter (fun en => decide (en.enemy_id = ee.enemy_id))).map
              (fun en => { enemy := en
                           homePlanet := findPlanet db en.home_planet_id
                           species := findSpecies db en.species_id
                           role := ee.role }))
        planets := (db.episode_locations.filter (fun el => decide (el.episode_id = episodeId))).flatMap
          (fun el =>
            (db.planets.filter (fun p => decide (p.planet_id = el.planet_id))).map
              (fun p => { planet := p, visit_order := el.visit_order }))
        doctors := db.doctors.map (fun d =>
          { doctor := d
            actor := db.actors.find? (fun a => decide (a.actor_id = d.actor_id))
            companions :=
              (db.doctor_companions.filter (fun dc =>
                decide (dc.doctor_id = d.doctor_id ∧
                        (dc.start_episode_id = some episodeId ∨
                         dc.end_episode_id = some episodeId)))).flatMap
                (fun dc =>
                  db.companions.filter (fun c => decide (c.companion_id = dc.companion_id))) }) }

/-! ## Constants (src/config/constants.js) and response handlers
(src/utils/responseHandler.js) -/

/-- HTTP_STATUS.OK of constants.js. -/
def HTTP_STATUS_OK : Nat := 200

/-- HTTP_STATUS.CREATED of constants.js. -/
def HTTP_STATUS_CREATED : Nat := 201

/-- HTTP_STATUS.NO_CONTENT of constants.js (defined but unused by the
response handlers). -/
def HTTP_STATUS_NO_CONTENT : Nat := 204

/-- HTTP_STATUS.BAD_REQUEST of constants.js. -/
def HTTP_STATUS_BAD_REQUEST : Nat := 400

/-- HTTP_STATUS.NOT_FOUND of constants.js. -/
def HTTP_STATUS_NOT_FOUND : Nat := 404

/-- HTTP_STATUS.UNPROCESSABLE_ENTITY of constants.js. -/
def HTTP_STATUS_UNPROCESSABLE_ENTITY : Nat := 422

/-- SUCCESS_MESSAGES.DELETED of constants.js. -/
def SUCCESS_MESSAGES_DELETED : String := "Resource deleted successfully"

/-- The JSON envelope written by sendSuccess (and, with status
"error", the essential fields of the error envelope; its timestamp and
path fields are omitted from the model).  data is none when the
JavaScript value is null. -/
structure EnvelopeBody (α : Type) where
  status : String
  data : Option α
  message : Option String
  deriving DecidableEq, Repr

/-- An HTTP response: status code plus an optional JSON body (none
would be an empty body). -/
structure HttpResponse (α : Type) where
  statusCode : Nat
  body : Option (EnvelopeBody α)
  deriving DecidableEq, Repr

/-- responseHandler.sendSuccess: res.status(statusCode).json with the
success envelope. -/
def sendSuccess (α : Type) (data : Option α) (statusCode : Nat) (message : Option String) :
    HttpResponse α :=
  { statusCode := statusCode
    body := some { status := "success", data := data, message := message } }

/-- responseHandler.sendDeleted: sendSuccess with null data, status
HTTP_STATUS.OK and the DELETED message. -/
def sendDeleted (α : Type) : HttpResponse α :=
  sendSuccess α none HTTP_STATUS_OK (some SUCCESS_MESSAGES_DELETED)

/-- DELETE /api/doctors/:id — the route loads the doctor
(doctorService.deleteDoctor via BaseService.delete), answers 404 when
it is absent, otherwise destroys the row and calls sendDeleted.
Returns the response together with the resulting database state. -/
def deleteDoctorRoute (db : DBState) (id : Nat) : HttpResponse Unit × DBState :=
  match db.doctors.find? (fun d => decide (d.doctor_id = id)) with
  | none =>
    ({ statusCode := HTTP_STATUS_NOT_FOUND
       body := some { status := "error", data := none, message := some "Doctor not found" } }, db)
  | some _ =>
    (sendDeleted Unit,
     { db with doctors := db.doctors.filter (fun d => decide (d.doctor_id ≠ id)) })

/-! ## updateEnemyThreatLevel (service + route) -/

/-- A row of the re-read SELECT of updateEnemyThreatLevel: the enemy
left-joined to SPECIES and PLANETS for the two name columns. -/
structure EnemyJoinedRow where
  enemy_id : Nat
  name : String
  threat_level : Int
  species_name : Option String
  home_planet : Option String
  deriving DecidableEq, Repr

/-- The SELECT of updateEnemyThreatLevel for one enemy id. -/
def enemySelectJoined (db : DBState) (enemyId : Int) : List EnemyJoinedRow :=
  (db.enemies.filter (fun e => decide ((e.enemy_id : Int) = enemyId))).map
    (fun e =>
      { enemy_id := e.enemy_id
        name := e.name
        threat_level := e.threat_level
        species_name := (findSpecies db e.species_id).map (fun s => s.name)
        home_planet := (findPlanet db e.home_planet_id).map (fun p => p.name) })

/-- The UPDATE statement of updateEnemyThreatLevel with the raw body
value as parameter.  A value that does not coerce to a number (MySQL
receives a non-numeric string) makes the statement fail in the
database; a numeric value is stored, rounded to an integer as MySQL
does for an INT column. -/
def sqlUpdateThreatLevel (db : DBState) (enemyId : Int) (v : JSValue) :
    Except String DBState :=
  match toNumber v with
  | none => Except.error "Incorrect integer value for column threat_level"
  | some q =>
    Except.ok
      { db with enemies := db.enemies.map (fun e =>
          if (e.enemy_id : Int) = enemyId then { e with threat_level := round q } else e) }

/-- The observable outcome of PUT /api/queries/update/enemy/:id/threat-level:
status code, final database state, whether an UPDATE statement was
issued, and the response content. -/
structure ThreatRouteResult where
  status : Nat
  db : DBState
  updateIssued : Bool
  errorMsg : Option String
  body : Option EnemyJoinedRow
  deriving DecidableEq, Repr

/-- PUT /api/queries/update/enemy/:id/threat-level: parseInt the id
(400 when NaN); then the inline body check
(!threat_level || threat_level < 1 || threat_level > 10) answers 400
without touching the database; otherwise
QueryService.updateEnemyThreatLevel runs the UPDATE and the re-read
SELECT, the route answering 404 when the re-read finds no row, 200
with the row otherwise, and 500 when the database errors. -/
def updateEnemyThreatLevelRoute (db : DBState) (idParam : String) (threat_level : JSValue) :
    ThreatRouteResult :=
  match jsParseInt idParam with
  | none =>
    { status := HTTP_STATUS_BAD_REQUEST, db := db, updateIssued := false
      errorMsg := some "Invalid enemy ID", body := none }
  | some enemyId =>
    if !truthy threat_level || jsLtNum threat_level 1 || jsGtNum threat_level 10 then
      { status := HTTP_STATUS_BAD_REQUEST, db := db, updateIssued := false
        errorMsg := some "Threat level must be between 1 and 10", body := none }
    else
      match sqlUpdateThreatLevel db enemyId threat_level with
      | Except.error e =>
        { status := 500, db := db, updateIssued := true, errorMsg := some e, body := none }
      | Except.ok db2 =>
        match enemySelectJoined db2 enemyId with
        | [] =>
          { status := HTTP_STATUS_NOT_FOUND, db := db2, updateIssued := true
            errorMsg := some "Enemy not found", body := none }
        | r :: _ =>
          { status := HTTP_STATUS_OK, db := db2, updateIssued := true
            errorMsg := none, body := some r }

/-! ## View-backed summary (service + route) -/

/-- The string the MySQL driver puts in the error message of a query
against a missing object (built without an apostrophe literal). -/
def doesntExist : String := "doesn" ++ String.singleton apos ++ "t exist"

/-- The replacement error message thrown by
QueryService.queryDoctorEpisodeSummary when the view is missing. -/
def viewMissingMsgDoctor : String :=
  "VIEW \"doctor_episode_summary\" does not exist. Please run: npm run db:objects"

/-- QueryService.queryDoctorEpisodeSummary given the database's
answer to SELECT * FROM doctor_episode_summary: a database error whose
message reports a missing object is replaced by the actionable
view-specific message, any other error is rethrown unchanged. -/
def queryDoctorEpisodeSummary (α : Type) (dbResult : Except String α) : Except String α :=
  match dbResult with
  | Except.ok r => Except.ok r
  | Except.error e =>
    if strIncludes e doesntExist then Except.error viewMissingMsgDoctor
    else Except.error e

/-- GET /api/queries/view/doctor-summary: 200 with the rows, or 500
with the service's error message. -/
def doctorSummaryRoute (α : Type) (dbResult : Except String α) : Nat × Option String :=
  match queryDoctorEpisodeSummary α dbResult with
  | Except.ok _ => (HTTP_STATUS_OK, none)
  | Except.error e => (500, some e)

/-! ## Doctor body validation (src/middleware/validation.js) and
POST /api/doctors -/

/-- validation.validateDoctorData: for a POST (or whenever the field
is present) incarnation_number must be truthy, not NaN under ToNumber,
and not <= 0; then the same for actor_id.  Returns the ValidationError
message when rejecting, none when the request proceeds. -/
def validateDoctorData (method : String) (incarnation_number actor_id : JSValue) :
    Option String :=
  if (decide (method = "POST") || decide (incarnation_number ≠ JSValue.vundefined)) &&
     (!truthy incarnation_number || jsIsNaN incarnation_number || jsLeNum incarnation_number 0) then
    some "Valid incarnation_number is required"
  else if (decide (method = "POST") || decide (actor_id ≠ JSValue.vundefined)) &&
     (!truthy actor_id || jsIsNaN actor_id || jsLeNum actor_id 0) then
    some "Valid actor_id is required"
  else none

/-- Whether POST /api/doctors is rejected by validation (a
ValidationError carries HTTP_STATUS.UNPROCESSABLE_ENTITY) or proceeds
to doctorService.createDoctor and hence the database. -/
inductive PostDoctorOutcome where
  | rejected (statusCode : Nat) (msg : String)
  | proceedsToDb
  deriving DecidableEq, Repr

/-- POST /api/doctors: the validateDoctorData middleware runs first;
a failure is answered with 422 before any database work, otherwise the
body reaches the create service. -/
def postDoctorRoute (incarnation_number actor_id : JSValue) : PostDoctorOutcome :=
  match validateDoctorData "POST" incarnation_number actor_id with
  | some m => PostDoctorOutcome.rejected HTTP_STATUS_UNPROCESSABLE_ENTITY m
  | none => PostDoctorOutcome.proceedsToDb

/-! ## Natural-language query route (src/routes/llm.js) -/

/-- The 503 message of the unconfigured LLM route. -/
def llmNotConfiguredMsg : String :=
  "LLM service not configured. Please set OPENAI_API_KEY in .env file."

/-- The observable outcome of POST /api/llm/query up to the external
call: earlyStatus is the response status decided before contacting the
completion API (none when the call is issued and the status depends on
the upstream answer), schemaFetched records whether the schema and
sample-data lookups ran, and apiCall carries the (temperature,
max_tokens) parameters of the completion request when one is made. -/
structure LlmResult where
  earlyStatus : Option Nat
  errorMsg : Option String
  schemaFetched : Bool
  apiCall : Option (Rat × Nat)
  deriving DecidableEq, Repr

/-- POST /api/llm/query: refuse with 503 when no OPENAI_API_KEY was
configured at startup; then answer 400 when the body's query field is
falsy; otherwise fetch the schema summary and sample rows and send the
completion request with temperature 0.7 and max_tokens 500. -/
def llmQueryRoute (configured : Bool) (query : JSValue) : LlmResult :=
  if configured = false then
    { earlyStatus := some 503, errorMsg := some llmNotConfiguredMsg
      schemaFetched := false, apiCall := none }
  else if truthy query = false then
    { earlyStatus := some HTTP_STATUS_BAD_REQUEST, errorMsg := some "Query is required"
      schemaFetched := false, apiCall := none }
  else
    { earlyStatus := none, errorMsg := none
      schemaFetched := true, apiCall := some ((7 : Rat) / 10, 500) }

/-! ## Concrete database states used by the scenario theorems -/

/-- The seeded state of the spec's concrete scenario: one Doctor of
incarnation 10 linked via one DOCTOR_COMPANIONS row to one Companion
whose start episode is Rose and whose end episode is The Parting of
the Ways; Rose has one Enemy (Auton, threat 6) and one Planet (Earth)
attached, The Parting of the Ways has none. -/
def seedDB : DBState :=
  { actors := [{ actor_id := 1, name := "David Tennant" }]
    doctors := [{ doctor_id := 10, incarnation_number := 10, actor_id := 1
                  first_episode_id := some 1, last_episode_id := some 2
                  catchphrase := some "Allons-y!" }]
    episodes :=
      [{ episode_id := 1, title := "Rose", season_id := some 1, writer_id := none
         director_id := none, air_date := some "2005-03-26", runtime_minutes := some 45 },
       { episode_id := 2, title := "The Parting of the Ways", season_id := some 1
         writer_id := none, director_id := none, air_date := some "2005-06-18"
         runtime_minutes := some 45 }]
    companions := [{ companion_id := 1, name := "Rose Tyler"
                     species_id := some 1, home_planet_id := some 1 }]
    species := [{ species_id := 1, name := "Human" }]
    planets := [{ planet_id := 1, name := "Earth" }]
    seasons := [{ season_id := 1, series_number := 1 }]
    writers := []
    directors := []
    doctor_companions := [{ doctor_id := 10, companion_id := 1
                            start_episode_id := some 1, end_episode_id := some 2 }]
    enemies := [{ enemy_id := 1, name := "Auton", species_id := none
                  home_planet_id := none, threat_level := 6 }]
    enemy_episodes := [{ enemy_id := 1, episode_id := 1, role := some "villain" }]
    episode_locations := [{ episode_id := 1, planet_id := 1, visit_order := some 1 }] }

/-- A state with one doctor whose first and last episode references
are non-null but who has zero DOCTOR_COMPANIONS rows. -/
def c2db : DBState :=
  { actors := []
    doctors := [{ doctor_id := 3, incarnation_number := 3, actor_id := 9
                  first_episode_id := some 5, last_episode_id := some 6
                  catchphrase := none }]
    episodes :=
      [{ episode_id := 5, title := "Robot", season_id := none, writer_id := none
         director_id := none, air_date := none, runtime_minutes := none },
       { episode_id := 6, title := "Logopolis", season_id := none, writer_id := none
         director_id := none, air_date := none, runtime_minutes := none }]
    companions := []
    species := []
    planets := []
    seasons := []
    writers := []
    directors := []
    doctor_companions := []
    enemies := []
    enemy_episodes := []
    episode_locations := [] }

/-- A state with one enemy of threat level 5, used to exercise the
threat-level update route. -/
def c3db : DBState :=
  { actors := [], doctors := [], episodes := [], companions := []
    species := [], planets := [], seasons := [], writers := [], directors := []
    doctor_companions := []
    enemies := [{ enemy_id := 1, name := "Auton", species_id := none
                  home_planet_id := none, threat_level := 5 }]
    enemy_episodes := [], episode_locations := [] }

/-- A state with one episode and one doctor that has no
DOCTOR_COMPANIONS row at all. -/
def c5db : DBState :=
  { actors := []
    doctors := [{ doctor_id := 7, incarnation_number := 7, actor_id := 4
                  first_episode_id := none, last_episode_id := none
                  catchphrase := none }]
    episodes := [{ episode_id := 1, title := "Rose", season_id := none, writer_id := none
                   director_id := none, air_date := none, runtime_minutes := none }]
    companions := [], species := [], planets := [], seasons := []
    writers := [], directors := [], doctor_companions := []
    enemies := [], enemy_episodes := [], episode_locations := [] }

/-- A state with one doctor row, used to exercise the DELETE route. -/
def c6db : DBState :=
  { actors := []
    doctors := [{ doctor_id := 10, incarnation_number := 10, actor_id := 1
                  first_episode_id := none, last_episode_id := none
                  catchphrase := none }]
    episodes := [], companions := [], species := [], planets := [], seasons := []
    writers := [], directors := [], doctor_companions := []
    enemies := [], enemy_episodes := [], episode_locations := [] }

/-- A database error message of the kind MySQL produces for a query
against a missing view. -/
def c8errInput : String := "Table dwdb.doctor_episode_summary " ++ doesntExist

/-- The value getDoctorFullDetails returns on seedDB for doctor 10. -/
def c1result : DoctorFullDetails :=
  { doctor := { doctor_id := 10, incarnation_number := 10, actor_id := 1
                first_episode_id := some 1, last_episode_id := some 2
                catchphrase := some "Allons-y!" }
    actor := some { actor_id := 1, name := "David Tennant" }
    firstEpisode := some { episode_id := 1, title := "Rose", season_id := some 1
                           writer_id := none, director_id := none
                           air_date := some "2005-03-26", runtime_minutes := some 45 }
    lastEpisode := some { episode_id := 2, title := "The Parting of the Ways"
                          season_id := some 1, writer_id := none, director_id := none
                          air_date := some "2005-06-18", runtime_minutes := some 45 }
    companions := [{ companion_id := 1, name := "Rose Tyler"
                     start_episode_id := some 1, end_episode_id := some 2
                     species := some { species_id := 1, name := some "Human" }
                     homePlanet := some { planet_id := 1, name := some "Earth" } }]
    episodes := [{ episode_id := 1, title := "Rose", air_date := some "2005-03-26"
                   runtime_minutes := some 45
                   enemies := [{ enemy_id := 1, name := "Auton", threat_level := 6 }]
                   planets := [{ planet_id := 1, name := "Earth" }] },
                 { episode_id := 2, title := "The Parting of the Ways"
                   air_date := some "2005-06-18", runtime_minutes := some 45
                   enemies := [], planets := [] }] }

/-- The value getDoctorFullDetails returns on c2db for doctor 3. -/
def c2result : DoctorFullDetails :=
  { doctor := { doctor_id := 3, incarnation_number := 3, actor_id := 9
                first_episode_id := some 5, last_episode_id := some 6
                catchphrase := none }
    actor := none
    firstEpisode := some { episode_id := 5, title := "Robot", season_id := none
                           writer_id := none, director_id := none
                           air_date := none, runtime_minutes := none }
    lastEpisode := some { episode_id := 6, title := "Logopolis", season_id := none
                          writer_id := none, director_id := none
                          air_date := none, runtime_minutes := none }
    companions := []
    episodes := [] }

/-- The value getEpisodeWithAllDetails returns on c5db for episode 1. -/
def c5result : EpisodeFullDetails :=
  { episode := { episode_id := 1, title := "Rose", season_id := none, writer_id := none
                 director_id := none, air_date := none, runtime_minutes := none }
    season := none
    writer := none
    director := none
    enemies := []
    planets := []
    doctors := [{ doctor := { doctor_id := 7, incarnation_number := 7, actor_id := 4
                              first_episode_id := none, last_episode_id := none
                              catchphrase := none }
                  actor := none
                  companions := [] }] }

/-! # Theorems -/

/-- C1: For the seeded state with one Doctor of incarnation 10 linked
via one DoctorCompanion row to one Companion whose start episode is
Rose and end episode is The Parting of the Ways, where Rose has one
Enemy (Auton, threat 6) and one Planet (Earth) attached and The
Parting of the Ways has none, getDoctorFullDetails(10) returns exactly
one companion, exactly two episodes (Rose and The Parting of the
Ways), with Rose's nested enemies list containing exactly the Auton
entry and its planets list containing exactly Earth, and The Parting
of the Ways having empty enemies and planets lists. -/
theorem getDoctorFullDetails_seed_scenario :
    getDoctorFullDetails seedDB 10 = some c1result ∧
    c1result.companions.map (fun c => c.companion_id) = [1] ∧
    c1result.episodes.map (fun e => e.title) = ["Rose", "The Parting of the Ways"] ∧
    c1result.episodes.map (fun e => e.enemies) =
      [[{ enemy_id := 1, name := "Auton", threat_level := 6 }], []] ∧
    c1result.episodes.map (fun e => e.planets) =
      [[{ planet_id := 1, name := "Earth" }], []] :=
  ⟨rfl, rfl, rfl, rfl, rfl⟩

/-- C2: For every doctor id whose Doctor row exists but has zero
DoctorCompanion rows, getDoctorFullDetails returns empty companions
and episodes lists even when the doctor's first and last episode
fields are non-null; and in general every episode of the returned
episodes list is referenced as a start or end episode of one of that
doctor's DoctorCompanion rows, so the doctor's own first/last episodes
are never merged in. -/
theorem getDoctorFullDetails_episodes_from_doctor_companions
    (db : DBState) (doctorId : Nat) (r : DoctorFullDetails)
    (hr : getDoctorFullDetails db doctorId = some r) :
    ((∀ dc ∈ db.doctor_companions, dc.doctor_id ≠ doctorId) →
      r.companions = [] ∧ r.episodes = []) ∧
    (∀ e ∈ r.episodes, ∃ dc ∈ db.doctor_companions,
      dc.doctor_id = doctorId ∧
      (dc.start_episode_id = some e.episode_id ∨
       dc.end_episode_id = some e.episode_id)) := by
  unfold getDoctorFullDetails at hr
  cases hfind : db.doctors.find? (fun d => decide (d.doctor_id = doctorId)) with
  | none => rw [hfind] at hr; exact absurd hr (by simp)
  | some d =>
    rw [hfind] at hr
    have hr' := Option.some.inj hr
    subst hr'
    constructor
    · intro hno
      have hfilter :
          db.doctor_companions.filter (fun dc => decide (dc.doctor_id = doctorId)) = [] := by
        rw [List.filter_eq_nil_iff]
        intro a ha
        simpa using hno a ha
      constructor
      · show (companionQuery db doctorId).map mkCompanionOut = []
        simp [companionQuery, hfilter]
      · show (episodeQuery db doctorId).map _ = []
        simp [episodeQuery, hfilter]
    · intro e he
      have he' : e ∈ (episodeQuery db doctorId).map
          (fun eq => ({ episode_id := eq.episode_id
                        title := eq.episode_title
                        air_date := eq.air_date
                        runtime_minutes := eq.runtime_minutes
                        enemies := _
                        planets := _ } : EpisodeOut)) := he
      obtain ⟨eq, heq, rfl⟩ := List.mem_map.mp he'
      simp only [episodeQuery, List.mem_dedup, List.mem_flatMap, List.mem_filter,
        List.mem_map, decide_eq_true_eq] at heq
      obtain ⟨dc, ⟨hdc, hdid⟩, ep, ⟨_, hor⟩, hproj⟩ := heq
      refine ⟨dc, hdc, hdid, ?_⟩
      show dc.start_episode_id = some eq.episode_id ∨ dc.end_episode_id = some eq.episode_id
      have hid : ep.episode_id = eq.episode_id := by
        have := congrArg EpisodeQueryRow.episode_id hproj
        simpa using this
      rw [← hid]
      exact hor

/-- Witness for C2: on c2db (doctor 3 with non-null first and last
episode references and zero DOCTOR_COMPANIONS rows) the theorem
yields empty companions and episodes lists. -/
theorem getDoctorFullDetails_episodes_from_doctor_companions_witness :
    getDoctorFullDetails c2db 3 = some c2result ∧
    c2result.doctor.first_episode_id = some 5 ∧
    c2result.doctor.last_episode_id = some 6 ∧
    (c2result.companions = [] ∧ c2result.episodes = []) :=
  ⟨rfl, rfl, rfl,
    (getDoctorFullDetails_episodes_from_doctor_companions c2db 3 c2result rfl).1
      (by decide)⟩

/-- Helper: with a parseable id parameter, a body value caught by the
route's inline check makes the threat-level route answer 400 without
issuing any database statement. -/
theorem updateRoute_invalid_body (db : DBState) (idParam : String) (eid : Int) (v : JSValue)
    (hid : jsParseInt idParam = some eid)
    (h : (!truthy v || jsLtNum v 1 || jsGtNum v 10) = true) :
    updateEnemyThreatLevelRoute db idParam v =
      { status := HTTP_STATUS_BAD_REQUEST, db := db, updateIssued := false
        errorMsg := some "Threat level must be between 1 and 10", body := none } := by
  unfold updateEnemyThreatLevelRoute
  rw [hid]
  simp [h]

/-- Helper: with a parseable id parameter, a body value that passes
the route's inline check reaches the UPDATE statement, and the
response status is never 400. -/
theorem updateRoute_valid_body (db : DBState) (idParam : String) (eid : Int) (v : JSValue)
    (hid : jsParseInt idParam = some eid)
    (h : (!truthy v || jsLtNum v 1 || jsGtNum v 10) = false) :
    (updateEnemyThreatLevelRoute db idParam v).status ≠ HTTP_STATUS_BAD_REQUEST ∧
    (updateEnemyThreatLevelRoute db idParam v).updateIssued = true := by
  unfold updateEnemyThreatLevelRoute
  rw [hid]
  cases hu : sqlUpdateThreatLevel db eid v with
  | error e =>
    simp [h, hu, HTTP_STATUS_BAD_REQUEST]
  | ok db2 =>
    cases hsel : enemySelectJoined db2 eid with
    | nil => simp [h, hu, hsel, HTTP_STATUS_BAD_REQUEST, HTTP_STATUS_NOT_FOUND]
    | cons r t => simp [h, hu, hsel, HTTP_STATUS_BAD_REQUEST, HTTP_STATUS_OK]

/-- Counterexample to C3: the body value "abc" is non-numeric (its
ToNumber coercion is NaN) and truthy, so the route's inline check
(!threat_level || threat_level < 1 || threat_level > 10) does not
reject it: instead of a 400 validation response the request reaches
the database, whose UPDATE fails, surfacing a 500. -/
theorem updateEnemyThreatLevel_nonNumeric_not_rejected :
    jsIsNaN (JSValue.vstr "abc") = true ∧
    (updateEnemyThreatLevelRoute c3db "1" (JSValue.vstr "abc")).status ≠
      HTTP_STATUS_BAD_REQUEST ∧
    (updateEnemyThreatLevelRoute c3db "1" (JSValue.vstr "abc")).updateIssued = true ∧
    (updateEnemyThreatLevelRoute c3db "1" (JSValue.vstr "abc")).status = 500 := by
  refine ⟨rfl, ?_, rfl, rfl⟩
  decide

/-- C3 as amended: for a numeric body value the route rejects with 400
and an untouched database exactly when the value lies outside [1, 10]
(v = 0 and v = 11 are both rejected this way), and a null or missing
threat_level is likewise rejected with 400 as falsy; but a non-numeric
body value is not necessarily rejected — truthy non-numeric values
whose coercion is NaN pass the inline check and reach the database
(see the counterexample). -/
theorem updateEnemyThreatLevel_numeric_range (db : DBState) (q : Rat) :
    (((updateEnemyThreatLevelRoute db "1" (JSValue.vnum q)).status = HTTP_STATUS_BAD_REQUEST ∧
      (updateEnemyThreatLevelRoute db "1" (JSValue.vnum q)).updateIssued = false ∧
      (updateEnemyThreatLevelRoute db "1" (JSValue.vnum q)).db = db) ↔
     (q < 1 ∨ 10 < q)) ∧
    updateEnemyThreatLevelRoute db "1" JSValue.vnull =
      { status := HTTP_STATUS_BAD_REQUEST, db := db, updateIssued := false
        errorMsg := some "Threat level must be between 1 and 10", body := none } ∧
    updateEnemyThreatLevelRoute db "1" JSValue.vundefined =
      { status := HTTP_STATUS_BAD_REQUEST, db := db, updateIssued := false
        errorMsg := some "Threat level must be between 1 and 10", body := none } := by
  have hid : jsParseInt "1" = some 1 := rfl
  refine ⟨?_, updateRoute_invalid_body db "1" 1 JSValue.vnull hid (by decide),
    updateRoute_invalid_body db "1" 1 JSValue.vundefined hid (by decide)⟩
  constructor
  · intro hrej
    by_contra hq
    push_neg at hq
    have h : (!truthy (JSValue.vnum q) || jsLtNum (JSValue.vnum q) 1 ||
        jsGtNum (JSValue.vnum q) 10) = false := by
      have h0 : q ≠ 0 := by
        intro h0
        rw [h0] at hq
        exact absurd hq.1 (by norm_num)
      simp [truthy, jsLtNum, jsGtNum, toNumber, h0, not_lt.mpr hq.1, not_lt.mpr hq.2]
    exact (updateRoute_valid_body db "1" 1 (JSValue.vnum q) hid h).1 hrej.1
  · intro hq
    have h : (!truthy (JSValue.vnum q) || jsLtNum (JSValue.vnum q) 1 ||
        jsGtNum (JSValue.vnum q) 10) = true := by
      rcases hq with hlt | hgt
      · by_cases h0 : q = 0
        · simp [truthy, h0]
        · simp [truthy, jsLtNum, toNumber, h0, hlt]
      · simp [jsGtNum, toNumber, hgt]
    rw [updateRoute_invalid_body db "1" 1 (JSValue.vnum q) hid h]
    exact ⟨rfl, rfl, rfl⟩

/-- C4: a PUT /api/queries/update/enemy/1/threat-level request with
body threat_level 11 returns 400 and leaves the database state (hence
the stored threat_level of every enemy) unchanged: no UPDATE statement
is issued. -/
theorem updateEnemyThreatLevel_11_is_400_and_unchanged (db : DBState) :
    updateEnemyThreatLevelRoute db "1" (JSValue.vnum 11) =
      { status := HTTP_STATUS_BAD_REQUEST, db := db, updateIssued := false
        errorMsg := some "Threat level must be between 1 and 10", body := none } :=
  updateRoute_invalid_body db "1" 1 (JSValue.vnum 11) rfl (by decide)

/-- Counterexample to C5: in c5db the only doctor (id 7) has no
DOCTOR_COMPANIONS row at all, yet the doctors list returned by
getEpisodeWithAllDetails for episode 1 contains it — the include is a
left outer join (required: false), so doctors without a matching row
are not excluded. -/
theorem getEpisodeWithAllDetails_includes_unlinked_doctor :
    c5db.doctor_companions = [] ∧
    getEpisodeWithAllDetails c5db 1 = some c5result ∧
    c5result.doctors.map (fun x => x.doctor.doctor_id) = [7] :=
  ⟨rfl, rfl, rfl⟩

/-- C5 as amended: the doctors list returned by
getEpisodeWithAllDetails contains every Doctor row of the database
(the companions include is required: false, a left outer join), and a
companion appears under a doctor exactly when some DoctorCompanion row
of that doctor has this episode as its start or end episode and joins
to that companion; in particular a doctor with no such row appears
with an empty companions list rather than being excluded. -/
theorem getEpisodeWithAllDetails_doctors_all (db : DBState) (episodeId : Nat)
    (r : EpisodeFullDetails) (hr : getEpisodeWithAllDetails db episodeId = some r) :
    r.doctors.map (fun x => x.doctor) = db.doctors ∧
    ∀ dout ∈ r.doctors, ∀ c, c ∈ dout.companions ↔
      ∃ dc ∈ db.doctor_companions,
        dc.doctor_id = dout.doctor.doctor_id ∧
        (dc.start_episode_id = some episodeId ∨ dc.end_episode_id = some episodeId) ∧
        c ∈ db.companions ∧ c.companion_id = dc.companion_id := by
  unfold getEpisodeWithAllDetails at hr
  cases hfind : db.episodes.find? (fun e => decide (e.episode_id = episodeId)) with
  | none => rw [hfind] at hr; exact absurd hr (by simp)
  | some e =>
    rw [hfind] at hr
    have hr' := Option.some.inj hr
    subst hr'
    constructor
    · rw [List.map_map]
      exact List.map_id'' (fun d => rfl) db.doctors
    · intro dout hd c
      obtain ⟨d, hdmem, rfl⟩ := List.mem_map.mp hd
      constructor
      · intro hc
        have hc' : c ∈ (db.doctor_companions.filter (fun dc =>
            decide (dc.doctor_id = d.doctor_id ∧
              (dc.start_episode_id = some episodeId ∨
               dc.end_episode_id = some episodeId)))).flatMap
            (fun dc =>
              db.companions.filter (fun c => decide (c.companion_id = dc.companion_id))) := hc
        simp only [List.mem_flatMap, List.mem_filter, decide_eq_true_eq] at hc'
        obtain ⟨dc, ⟨hmem, hid, hse⟩, hcmem, hcid⟩ := hc'
        exact ⟨dc, hmem, hid, hse, hcmem, hcid⟩
      · rintro ⟨dc, hmem, hid, hse, hcmem, hcid⟩
        show c ∈ (db.doctor_companions.filter (fun dc =>
            decide (dc.doctor_id = d.doctor_id ∧
              (dc.start_episode_id = some episodeId ∨
               dc.end_episode_id = some episodeId)))).flatMap
            (fun dc =>
              db.companions.filter (fun c => decide (c.companion_id = dc.companion_id)))
        simp only [List.mem_flatMap, List.mem_filter, decide_eq_true_eq]
        exact ⟨dc, ⟨hmem, hid, hse⟩, hcmem, hcid⟩

/-- Witness for C5 as amended: on c5db the doctors list for episode 1
is exactly the doctor table. -/
theorem getEpisodeWithAllDetails_doctors_all_witness :
    getEpisodeWithAllDetails c5db 1 = some c5result ∧
    c5result.doctors.map (fun x => x.doctor) = c5db.doctors :=
  ⟨rfl, (getEpisodeWithAllDetails_doctors_all c5db 1 c5result rfl).1⟩

/-- Counterexample to C6: a successful DELETE of an existing doctor
responds with status 200 (HTTP_STATUS.OK), not 204, and carries a JSON
body — the success envelope with null data and the deleted message. -/
theorem deleteDoctor_returns_200_with_body :
    (deleteDoctorRoute c6db 10).1.statusCode = HTTP_STATUS_OK ∧
    (deleteDoctorRoute c6db 10).1.statusCode ≠ HTTP_STATUS_NO_CONTENT ∧
    (deleteDoctorRoute c6db 10).1.body =
      some { status := "success", data := none, message := some SUCCESS_MESSAGES_DELETED } :=
  ⟨rfl, by decide, rfl⟩

/-- C6 as amended: a successful DELETE /api/doctors/:id (the row
exists) responds via sendDeleted: status 200 with the success envelope
whose data is null and whose message is the DELETED constant, and the
row is removed from the doctor table. -/
theorem deleteDoctor_success_envelope (db : DBState) (id : Nat)
    (hex : (db.doctors.find? (fun d => decide (d.doctor_id = id))).isSome = true) :
    (deleteDoctorRoute db id).1 = sendDeleted Unit ∧
    (deleteDoctorRoute db id).1.statusCode = HTTP_STATUS_OK ∧
    (deleteDoctorRoute db id).2 =
      { db with doctors := db.doctors.filter (fun d => decide (d.doctor_id ≠ id)) } := by
  unfold deleteDoctorRoute
  cases hfind : db.doctors.find? (fun d => decide (d.doctor_id = id)) with
  | none => rw [hfind] at hex; simp at hex
  | some d => simp [hfind, sendDeleted, sendSuccess]

/-- Witness for C6 as amended: deleting doctor 10 from c6db answers
with the sendDeleted response. -/
theorem deleteDoctor_success_envelope_witness :
    (c6db.doctors.find? (fun d => decide (d.doctor_id = 10))).isSome = true ∧
    (deleteDoctorRoute c6db 10).1 = sendDeleted Unit :=
  ⟨rfl, (deleteDoctor_success_envelope c6db 10 rfl).1⟩

/-- C7: when no API credential is configured, every POST /api/llm/query
request is refused with 503 and the "not configured" message, without
any schema lookup or external call; when configured and the query is
non-empty, the completion call is made with temperature 0.7 and
max_tokens 500. -/
theorem llmQueryRoute_config_and_params (v q : JSValue) (hq : truthy q = true) :
    llmQueryRoute false v =
      { earlyStatus := some 503, errorMsg := some llmNotConfiguredMsg
        schemaFetched := false, apiCall := none } ∧
    strIncludes llmNotConfiguredMsg "not configured" = true ∧
    llmQueryRoute true q =
      { earlyStatus := none, errorMsg := none, schemaFetched := true
        apiCall := some ((7 : Rat) / 10, 500) } := by
  refine ⟨rfl, rfl, ?_⟩
  unfold llmQueryRoute
  simp [hq]

/-- Witness for C7: the unconfigured refusal on an arbitrary body and
the configured call parameters on the non-empty query "hello". -/
theorem llmQueryRoute_config_and_params_witness :
    truthy (JSValue.vstr "hello") = true ∧
    llmQueryRoute false (JSValue.vstr "x") =
      { earlyStatus := some 503, errorMsg := some llmNotConfiguredMsg
        schemaFetched := false, apiCall := none } ∧
    llmQueryRoute true (JSValue.vstr "hello") =
      { earlyStatus := none, errorMsg := none, schemaFetched := true
        apiCall := some ((7 : Rat) / 10, 500) } :=
  ⟨rfl, (llmQueryRoute_config_and_params (JSValue.vstr "x") (JSValue.vstr "hello") rfl).1,
    (llmQueryRoute_config_and_params (JSValue.vstr "x") (JSValue.vstr "hello") rfl).2.2⟩

/-- C8: when the database error message of the doctor-summary view
query reports a missing object, the service replaces it by a message
that names the view doctor_episode_summary and carries the remediation
command, and the route surfaces it with status 500; any other database
error is passed through unchanged, so the two cases stay distinct. -/
theorem queryDoctorEpisodeSummary_missing_view_message (e eOther : String)
    (hmiss : strIncludes e doesntExist = true)
    (hother : strIncludes eOther doesntExist = false) :
    queryDoctorEpisodeSummary Unit (Except.error e) = Except.error viewMissingMsgDoctor ∧
    strIncludes viewMissingMsgDoctor "doctor_episode_summary" = true ∧
    strIncludes viewMissingMsgDoctor "Please run: npm run db:objects" = true ∧
    doctorSummaryRoute Unit (Except.error e) = (500, some viewMissingMsgDoctor) ∧
    queryDoctorEpisodeSummary Unit (Except.error eOther) = Except.error eOther := by
  refine ⟨?_, rfl, rfl, ?_, ?_⟩
  · unfold queryDoctorEpisodeSummary
    simp [hmiss]
  · unfold doctorSummaryRoute queryDoctorEpisodeSummary
    simp [hmiss]
  · unfold queryDoctorEpisodeSummary
    simp [hother]

/-- Witness for C8: a MySQL-style missing-object message is replaced
by the view-specific message, while an unrelated error is passed
through. -/
theorem queryDoctorEpisodeSummary_missing_view_message_witness :
    strIncludes c8errInput doesntExist = true ∧
    strIncludes "Connection refused" doesntExist = false ∧
    queryDoctorEpisodeSummary Unit (Except.error c8errInput) =
      Except.error viewMissingMsgDoctor := by
  refine ⟨rfl, rfl, ?_⟩
  exact (queryDoctorEpisodeSummary_missing_view_message c8errInput "Connection refused"
    rfl rfl).1

/-- C10: POST /api/llm/query treats an absent, null or empty-string
query field alike: with the API key configured (so the request reaches
the query check at all), the route answers 400 with the
"Query is required" message, performing no schema lookup and no
external call.  (Without the key the 503 refusal of C7 precedes this
check.) -/
theorem llmQueryRoute_empty_query_400 (q : JSValue)
    (h : q = JSValue.vundefined ∨ q = JSValue.vnull ∨ q = JSValue.vstr "") :
    llmQueryRoute true q =
      { earlyStatus := some HTTP_STATUS_BAD_REQUEST, errorMsg := some "Query is required"
        schemaFetched := false, apiCall := none } := by
  rcases h with rfl | rfl | rfl <;> rfl

/-- Witness for C10: the empty-string query. -/
theorem llmQueryRoute_empty_query_400_witness :
    (JSValue.vstr "" = JSValue.vundefined ∨ JSValue.vstr "" = JSValue.vnull ∨
      JSValue.vstr "" = JSValue.vstr "") ∧
    llmQueryRoute true (JSValue.vstr "") =
      { earlyStatus := some HTTP_STATUS_BAD_REQUEST, errorMsg := some "Query is required"
        schemaFetched := false, apiCall := none } :=
  ⟨Or.inr (Or.inr rfl),
    llmQueryRoute_empty_query_400 (JSValue.vstr "") (Or.inr (Or.inr rfl))⟩

/-- Helper: the per-field check of validateDoctorData passes exactly
when the field's ToNumber coercion is a positive number. -/
theorem doctorFieldOk_iff (v : JSValue) :
    (!truthy v || jsIsNaN v || jsLeNum v 0) = false ↔
      ∃ p, toNumber v = some p ∧ 0 < p := by
  cases v with
  | vnum q =>
    simp only [truthy, jsIsNaN, jsLeNum, toNumber, Option.isNone_some,
      Bool.or_eq_false_iff, Bool.not_eq_false', decide_eq_true_eq, decide_eq_false_iff_not,
      not_le, Option.some.injEq]
    constructor
    · rintro ⟨⟨hne, -⟩, hpos⟩
      exact ⟨q, rfl, hpos⟩
    · rintro ⟨p, rfl, hpos⟩
      exact ⟨⟨ne_of_gt hpos, trivial⟩, hpos⟩
  | vstr s =>
    by_cases hs : s = ""
    · subst hs
      have hp : parseJSNumber "" = some 0 := rfl
      simp [truthy, jsIsNaN, jsLeNum, toNumber, hp]
    · cases hp : parseJSNumber s with
      | none => simp [truthy, jsIsNaN, jsLeNum, toNumber, hp]
      | some p =>
        simp only [truthy, jsIsNaN, jsLeNum, toNumber, hp, Option.isNone_some,
          Bool.or_eq_false_iff, Bool.not_eq_false', decide_eq_true_eq,
          decide_eq_false_iff_not, not_le, Option.some.injEq]
        constructor
        · rintro ⟨-, hpos⟩
          exact ⟨p, rfl, hpos⟩
        · rintro ⟨x, rfl, hpos⟩
          exact ⟨⟨hs, trivial⟩, hpos⟩
  | vbool b =>
    cases b <;> simp [truthy, jsIsNaN, jsLeNum, toNumber]
  | vnull => simp [truthy, jsIsNaN, jsLeNum, toNumber]
  | vundefined => simp [truthy, jsIsNaN, jsLeNum, toNumber]

/-- Counterexample to C9: the body with incarnation_number 5/2, i.e.
mkRat 5 2 (a positive number that is not an integer, den = 2) and actor_id 1 passes
validateDoctorData and proceeds to the database instead of being
rejected with 422. -/
theorem postDoctor_accepts_nonInteger :
    postDoctorRoute (JSValue.vnum (mkRat 5 2)) (JSValue.vnum 1) =
      PostDoctorOutcome.proceedsToDb ∧
    (mkRat 5 2).den ≠ 1 ∧ 0 < mkRat 5 2 :=
  ⟨rfl, by decide, by decide⟩

/-- C9 as amended: POST /api/doctors passes validation (and so reaches
the database) exactly when both incarnation_number and actor_id coerce
to a positive number under JavaScript ToNumber; everything else —
missing, non-numeric (NaN-coercing), zero, negative — is rejected with
422 before any database work, but positive non-integers and positive
numeric strings are accepted, not rejected. -/
theorem postDoctor_accept_iff (inc act : JSValue) :
    postDoctorRoute inc act = PostDoctorOutcome.proceedsToDb ↔
      ((∃ p, toNumber inc = some p ∧ 0 < p) ∧ (∃ q, toNumber act = some q ∧ 0 < q)) := by
  rw [← doctorFieldOk_iff inc, ← doctorFieldOk_iff act]
  unfold postDoctorRoute validateDoctorData
  have hpost : decide (("POST" : String) = "POST") = true := by simp
  cases h1 : (!truthy inc || jsIsNaN inc || jsLeNum inc 0) with
  | true => simp [hpost, h1]
  | false =>
    cases h2 : (!truthy act || jsIsNaN act || jsLeNum act 0) with
    | true => simp [hpost, h1, h2]
    | false => simp [hpost, h1, h2]
